import Mathlib

/-!
Verification of the turn-loop orchestration in `conai.py` (class `VoiceAI`
and function `main`).

The program is a sequential voice-assistant loop.  Each collaborator call
(speech capture, dialogue generation, primary speech synthesis, fallback
speech synthesis) is an external effect; we embed one turn as a pure
function over a `TurnEnv` record that fixes the outcome each collaborator
would produce on that turn, and we record the calls the turn performs as an
ordered list of `Event`s.  Exceptions are modelled explicitly: a Python
function that can let an exception escape returns a result marked `raised`.
-/

namespace ConAI

/-- Python's `str.lower()` as used on the captured utterance: lower-case
every character. -/
def pyLower (s : String) : String := String.mk (s.data.map Char.toLower)

/-- Python's `str.strip()` (no arguments): remove leading and trailing
whitespace. -/
def pyStrip (s : String) : String :=
  String.mk
    (((s.data.dropWhile Char.isWhitespace).reverse.dropWhile Char.isWhitespace).reverse)

/-- Outcome of one attempt to capture speech, mirroring the exception
cases handled inside `VoiceAI.listen` (lines 52-68): a recognized
transcript, `sr.WaitTimeoutError`, `sr.UnknownValueError`, or any other
exception (`except Exception`). -/
inductive CaptureOutcome where
  | recognized (text : String)
  | waitTimeout
  | unknownValue
  | otherError (msg : String)
deriving DecidableEq, Repr

/-- The capture outcome is one of the failure cases. -/
def CaptureOutcome.isFailure : CaptureOutcome → Bool
  | .recognized _ => false
  | .waitTimeout => true
  | .unknownValue => true
  | .otherError _ => true

/-- `VoiceAI.listen` (lines 52-68): returns the recognized text, and on
`WaitTimeoutError`, `UnknownValueError` or any other exception returns
`None`.  It is a total function: no exception escapes to the caller. -/
def listen : CaptureOutcome → Option String
  | .recognized t => some t
  | .waitTimeout => none
  | .unknownValue => none
  | .otherError _ => none

/-- Outcome of one `chat_session.send_message` call: success carrying
`response.text`, or any exception. -/
inductive GenOutcome where
  | success (respText : String)
  | failure (msg : String)
deriving DecidableEq, Repr

/-- The fixed apology string returned by `VoiceAI.get_ai_response` when the
Gemini call raises (line 80). -/
def apology : String := "trouble responding."

/-- `VoiceAI.get_ai_response` (lines 70-80): on success returns
`response.text.strip()`; on any exception returns the fixed apology
string.  Total: no exception escapes. -/
def get_ai_response (g : GenOutcome) : String :=
  match g with
  | .success respText => pyStrip respText
  | .failure _ => apology

/-- One observable collaborator call made during a turn, in order:
the capture attempt and its result, a `send_message` call with its input
and output, a primary ElevenLabs synthesis attempt, a fallback pyttsx3
synthesis attempt.  `ok` records whether the attempt succeeded. -/
inductive Event where
  | capture (result : Option String)
  | generateCall (input : String) (output : String)
  | primarySynth (text : String) (ok : Bool)
  | fallbackSynth (text : String) (ok : Bool)
deriving DecidableEq, Repr

/-- The synthesis attempts performed by one call to `VoiceAI.speak`
(lines 82-96): the primary ElevenLabs path is always attempted; only if it
raises is `fallback_speak` invoked, with the same text. -/
def speakEvents (primaryOk fallbackOk : Bool) (text : String) : List Event :=
  if primaryOk then [.primarySynth text true]
  else [.primarySynth text false, .fallbackSynth text fallbackOk]

/-- Whether a call to `VoiceAI.speak` lets an exception escape:
`fallback_speak` (lines 98-100) has no exception handler, so `speak`
raises exactly when the primary path fails and the fallback also fails. -/
def speakRaises (primaryOk fallbackOk : Bool) : Bool := !primaryOk && !fallbackOk

/-- Turn status in the spec's vocabulary: `Continue` (a normal turn),
`Exit` (the `break` at line 118), `Idle` (the `continue` at line 111). -/
inductive TurnStatus where
  | Continue
  | Exit
  | Idle
deriving DecidableEq, Repr

/-- Result of one loop iteration: a status, or an exception escaping the
iteration (which in `VoiceAI.run` ends the `while` loop). -/
inductive TurnResult where
  | status (s : TurnStatus)
  | raised
deriving DecidableEq, Repr

/-- Fixed behaviour of the collaborators during one turn. -/
structure TurnEnv where
  capture : CaptureOutcome
  gen : GenOutcome
  primaryOk : Bool
  fallbackOk : Bool
deriving DecidableEq, Repr

/-- What one loop iteration produced: its result and the ordered trace of
collaborator calls it made. -/
structure TurnOutput where
  result : TurnResult
  events : List Event
deriving DecidableEq, Repr

/-- The fixed farewell string (line 114). -/
def farewell : String := "Goodbye! It was nice talking to you."

/-- The fixed exit-phrase list (line 113). -/
def exitPhrases : List String := ["quit", "exit", "stop", "goodbye"]

/-- One iteration of the `while True` loop in `VoiceAI.run`
(lines 108-121):
* `user_text = self.listen()`; `if not user_text: continue` — both `None`
  and the empty string are falsy, so both give an idle turn with no
  further calls;
* `if user_text.lower().strip() in ["quit", "exit", "stop", "goodbye"]` —
  speak the fixed farewell and `break`;
* otherwise `ai_response = self.get_ai_response(user_text)` then
  `self.speak(ai_response)`.
The calls to `speak` are not wrapped in any handler inside `run`, so if
`speak` raises, the iteration (and the loop) ends with `raised`. -/
def runTurn (env : TurnEnv) : TurnOutput :=
  match listen env.capture with
  | none => ⟨.status .Idle, [.capture none]⟩
  | some t =>
    if t == "" then ⟨.status .Idle, [.capture (some t)]⟩
    else if exitPhrases.contains (pyStrip (pyLower t)) then
      ⟨if speakRaises env.primaryOk env.fallbackOk then .raised else .status .Exit,
        .capture (some t) :: speakEvents env.primaryOk env.fallbackOk farewell⟩
    else
      let reply := get_ai_response env.gen
      ⟨if speakRaises env.primaryOk env.fallbackOk then .raised else .status .Continue,
        .capture (some t) :: .generateCall t reply ::
          speakEvents env.primaryOk env.fallbackOk reply⟩

/-- Inputs of the `send_message` calls in a trace. -/
def generateInputs (evs : List Event) : List String :=
  evs.filterMap fun e =>
    match e with
    | .generateCall i _ => some i
    | _ => none

/-- Texts of the primary ElevenLabs synthesis attempts in a trace. -/
def primaryTexts (evs : List Event) : List String :=
  evs.filterMap fun e =>
    match e with
    | .primarySynth t _ => some t
    | _ => none

/-- Texts of the fallback pyttsx3 synthesis attempts in a trace. -/
def fallbackTexts (evs : List Event) : List String :=
  evs.filterMap fun e =>
    match e with
    | .fallbackSynth t _ => some t
    | _ => none

/-- Texts of all synthesis attempts (primary and fallback) in a trace. -/
def synthTexts (evs : List Event) : List String :=
  evs.filterMap fun e =>
    match e with
    | .primarySynth t _ => some t
    | .fallbackSynth t _ => some t
    | _ => none

/-- How the `while True` loop in `VoiceAI.run` ends when driven by a
finite script of turn environments. -/
inductive RunEnd where
  | exited
  | raisedOut
  | scriptEnded
deriving DecidableEq, Repr

/-- The loop of `VoiceAI.run` over a finite script: how it ends, and how
many iterations executed.  An iteration whose `speak` raises ends the loop
(the exception propagates out of `run`); `Exit` is the `break`;
`Continue` and `Idle` go to the next iteration. -/
def runLoopCount : List TurnEnv → RunEnd × Nat
  | [] => (.scriptEnded, 0)
  | e :: rest =>
    match (runTurn e).result with
    | .raised => (.raisedOut, 1)
    | .status .Exit => (.exited, 1)
    | .status .Continue =>
      let r := runLoopCount rest
      (r.1, r.2 + 1)
    | .status .Idle =>
      let r := runLoopCount rest
      (r.1, r.2 + 1)

/-- The three values read from the environment in `main` (lines 126-128);
`os.getenv` yields `None` when unset. -/
structure Config where
  gemini_key : Option String
  elevenlabs_key : Option String
  voice_id : Option String
deriving DecidableEq, Repr

/-- Python falsiness of an `os.getenv` result: `None` or the empty
string. -/
def pyFalsyEnv : Option String → Bool
  | none => true
  | some s => s == ""

/-- The credential test at line 130:
`if not gemini_key or not elevenlabs_key or not voice_id`. -/
def credsMissing (c : Config) : Bool :=
  pyFalsyEnv c.gemini_key || pyFalsyEnv c.elevenlabs_key || pyFalsyEnv c.voice_id

/-- The names of the credentials that are absent. -/
def missingKeys (c : Config) : List String :=
  (if pyFalsyEnv c.gemini_key then ["GEMINI_API_KEY"] else []) ++
    (if pyFalsyEnv c.elevenlabs_key then ["ELEVENLABS_API_KEY"] else []) ++
      (if pyFalsyEnv c.voice_id then ["ELEVENLABS_VOICE_ID"] else [])

/-- The lines printed by `main` before `sys.exit(1)` (lines 131-134). -/
def missingMessage : List String :=
  ["Missing API keys or voice ID. Please check your .env file:",
    "GEMINI_API_KEY=...",
    "ELEVENLABS_API_KEY=...",
    "ELEVENLABS_VOICE_ID=..."]

/-- Observable outcome of `main`: the process exit code, how many loop
iterations ran, whether startup failed on credentials, and the lines
`main` itself printed on that failure path. -/
structure MainResult where
  exitCode : Nat
  loopIterations : Nat
  configFailed : Bool
  printedLines : List String
deriving DecidableEq, Repr

/-- `main` (lines 124-145): if any credential is falsy, print the fixed
message and `sys.exit(1)` before the loop ever runs.  Otherwise run the
loop; a `KeyboardInterrupt` or any exception escaping `run` is caught by
the handlers at lines 142-145, so `main` returns and the process exits
with code 0. -/
def main (cfg : Config) (script : List TurnEnv) : MainResult :=
  if credsMissing cfg then ⟨1, 0, true, missingMessage⟩
  else ⟨0, (runLoopCount script).2, false, []⟩


/-! ## Helper lemmas -/

/-- Unfolding of one loop iteration once the capture produced a non-empty
transcript: the iteration branches only on the exit-phrase test. -/
theorem runTurn_eq_of_some (env : TurnEnv) (u : String)
    (hc : listen env.capture = some u) (hne : u ≠ "") :
    runTurn env =
      if exitPhrases.contains (pyStrip (pyLower u)) then
        ⟨if speakRaises env.primaryOk env.fallbackOk then .raised else .status .Exit,
          .capture (some u) :: speakEvents env.primaryOk env.fallbackOk farewell⟩
      else
        ⟨if speakRaises env.primaryOk env.fallbackOk then .raised else .status .Continue,
          .capture (some u) :: .generateCall u (get_ai_response env.gen) ::
            speakEvents env.primaryOk env.fallbackOk (get_ai_response env.gen)⟩ := by
  unfold runTurn
  rw [hc]
  simp [hne]

/-- The non-exit branch of a turn, in closed form. -/
theorem runTurn_normal (env : TurnEnv) (u : String)
    (hc : listen env.capture = some u) (hne : u ≠ "")
    (hmem : exitPhrases.contains (pyStrip (pyLower u)) = false) :
    runTurn env =
      ⟨if speakRaises env.primaryOk env.fallbackOk then .raised else .status .Continue,
        .capture (some u) :: .generateCall u (get_ai_response env.gen) ::
          speakEvents env.primaryOk env.fallbackOk (get_ai_response env.gen)⟩ := by
  rw [runTurn_eq_of_some env u hc hne, hmem]
  simp

/-- The exit branch of a turn, in closed form. -/
theorem runTurn_exit (env : TurnEnv) (u : String)
    (hc : listen env.capture = some u) (hne : u ≠ "")
    (hmem : exitPhrases.contains (pyStrip (pyLower u)) = true) :
    runTurn env =
      ⟨if speakRaises env.primaryOk env.fallbackOk then .raised else .status .Exit,
        .capture (some u) :: speakEvents env.primaryOk env.fallbackOk farewell⟩ := by
  rw [runTurn_eq_of_some env u hc hne, hmem]
  simp

/-! ## Claims -/

/-- C1: for every captured utterance equal to one of "quit", "exit",
"stop", "goodbye" up to letter case and surrounding whitespace, a turn in
which primary synthesis works returns `Exit`, its trace holds exactly one
synthesis call and its text is exactly the fixed farewell string, and no
`send_message` (DialogueEngine.generate) call appears in the trace. -/
theorem C1_exit_phrase_turn (env : TurnEnv) (u : String)
    (hc : listen env.capture = some u) (hne : u ≠ "")
    (hmem : exitPhrases.contains (pyStrip (pyLower u)) = true)
    (hp : env.primaryOk = true) :
    runTurn env = ⟨.status .Exit, [.capture (some u), .primarySynth farewell true]⟩ := by
  rw [runTurn_exit env u hc hne hmem]
  simp [speakRaises, speakEvents, hp]

/-- C1 witness: the spec's own scenario, with case and whitespace noise. -/
theorem C1_exit_phrase_turn_witness :
    runTurn ⟨.recognized "  Goodbye ", .success "x", true, true⟩ =
      ⟨.status .Exit, [.capture (some "  Goodbye "), .primarySynth farewell true]⟩ :=
  C1_exit_phrase_turn ⟨.recognized "  Goodbye ", .success "x", true, true⟩ "  Goodbye "
    rfl (by decide) (by decide) rfl

/-- C2 counterexample: when both synthesis paths fail on a turn, the loop
does not continue to the next iteration.  With a two-turn script, the loop
ends by a propagating exception after one iteration; the second scripted
turn never runs, refuting "the turn loop continues to the next
iteration". -/
theorem C2_counterexample :
    (runTurn ⟨.recognized "hello", .success "hi", false, false⟩).result =
        TurnResult.raised ∧
      runLoopCount [⟨.recognized "hello", .success "hi", false, false⟩,
          ⟨.recognized "hello again", .success "hi", true, true⟩] =
        (RunEnd.raisedOut, 1) := by
  decide

/-- C2 amended: if the primary synthesis path fails and the fallback also
raises, the exception escapes the turn and ends the loop after the current
iteration; it is caught only by main's top-level handler, so the process
exits normally (code 0) instead of crashing, but no further turns run. -/
theorem C2_fallback_failure_ends_loop (env : TurnEnv) (u : String)
    (rest : List TurnEnv) (cfg : Config)
    (hc : listen env.capture = some u) (hne : u ≠ "")
    (hp : env.primaryOk = false) (hf : env.fallbackOk = false)
    (hcfg : credsMissing cfg = false) :
    (runTurn env).result = TurnResult.raised ∧
      runLoopCount (env :: rest) = (RunEnd.raisedOut, 1) ∧
      main cfg (env :: rest) = ⟨0, 1, false, []⟩ := by
  have hres : (runTurn env).result = TurnResult.raised := by
    rw [runTurn_eq_of_some env u hc hne, hp, hf]
    split <;> rfl
  have hloop : runLoopCount (env :: rest) = (RunEnd.raisedOut, 1) := by
    simp [runLoopCount, hres]
  exact ⟨hres, hloop, by simp [main, hcfg, hloop]⟩

/-- C2 amended witness. -/
theorem C2_fallback_failure_ends_loop_witness :
    (runTurn ⟨.recognized "hi there", .success "ok", false, false⟩).result =
        TurnResult.raised ∧
      runLoopCount [⟨.recognized "hi there", .success "ok", false, false⟩,
          ⟨.recognized "quit", .success "ok", true, true⟩] = (RunEnd.raisedOut, 1) ∧
      main ⟨some "g", some "e", some "v"⟩
          [⟨.recognized "hi there", .success "ok", false, false⟩,
            ⟨.recognized "quit", .success "ok", true, true⟩] = ⟨0, 1, false, []⟩ :=
  C2_fallback_failure_ends_loop ⟨.recognized "hi there", .success "ok", false, false⟩
    "hi there" [⟨.recognized "quit", .success "ok", true, true⟩]
    ⟨some "g", some "e", some "v"⟩ rfl (by decide) rfl rfl (by decide)

/-- C3: with any required credential absent (unset or empty), `main`
prints the fixed message and exits with code 1 before any loop iteration
runs, whatever the would-be turns were; every missing key's name is listed
in the printed message. -/
theorem C3_missing_credentials (cfg : Config) (script : List TurnEnv)
    (hmiss : credsMissing cfg = true) :
    main cfg script = ⟨1, 0, true, missingMessage⟩ ∧
      ∀ k ∈ missingKeys cfg, (k ++ "=...") ∈ missingMessage := by
  refine ⟨by simp [main, hmiss], ?_⟩
  intro k hk
  have hset : k = "GEMINI_API_KEY" ∨ k = "ELEVENLABS_API_KEY" ∨
      k = "ELEVENLABS_VOICE_ID" := by
    simp only [missingKeys, List.mem_append] at hk
    rcases hk with (h | h) | h <;> (split at h <;> simp_all)
  rcases hset with h | h | h <;> subst h <;> decide

/-- C3 witness: two of the three credentials missing (one unset, one
empty). -/
theorem C3_missing_credentials_witness :
    main ⟨some "g", none, some ""⟩ [⟨.recognized "hi", .success "x", true, true⟩] =
        ⟨1, 0, true, missingMessage⟩ ∧
      ∀ k ∈ missingKeys ⟨some "g", none, some ""⟩, (k ++ "=...") ∈ missingMessage :=
  C3_missing_credentials ⟨some "g", none, some ""⟩
    [⟨.recognized "hi", .success "x", true, true⟩] (by decide)

/-- C4: every failing capture outcome (timeout, unintelligible audio, any
other error) makes `listen` return `None` rather than raise, and the turn
then returns `Idle` with no `send_message` call and no synthesis call of
either kind. -/
theorem C4_capture_failure_idle (env : TurnEnv)
    (hf : env.capture.isFailure = true) :
    listen env.capture = none ∧
      runTurn env = ⟨.status .Idle, [.capture none]⟩ ∧
      generateInputs (runTurn env).events = [] ∧
      synthTexts (runTurn env).events = [] := by
  obtain ⟨c, g, p, f⟩ := env
  cases c <;>
    simp_all [CaptureOutcome.isFailure, listen, runTurn, generateInputs, synthTexts]

/-- C4 witness: a capture timeout. -/
theorem C4_capture_failure_idle_witness :
    listen (TurnEnv.mk .waitTimeout (.success "x") true true).capture = none ∧
      runTurn ⟨.waitTimeout, .success "x", true, true⟩ =
        ⟨.status .Idle, [.capture none]⟩ ∧
      generateInputs (runTurn ⟨.waitTimeout, .success "x", true, true⟩).events = [] ∧
      synthTexts (runTurn ⟨.waitTimeout, .success "x", true, true⟩).events = [] :=
  C4_capture_failure_idle ⟨.waitTimeout, .success "x", true, true⟩ rfl

/-- C5: when the dialogue call fails on a normal (non-empty, non-exit)
turn and at least one synthesis path works, the turn returns `Continue`,
the utterance is still forwarded to `send_message`, and the text handed to
synthesis is exactly the fixed apology string — the dialogue exception
never escapes the turn. -/
theorem C5_generation_failure_apology (env : TurnEnv) (u m : String)
    (hc : listen env.capture = some u) (hne : u ≠ "")
    (hmem : exitPhrases.contains (pyStrip (pyLower u)) = false)
    (hg : env.gen = GenOutcome.failure m)
    (hs : (env.primaryOk || env.fallbackOk) = true) :
    (runTurn env).result = TurnResult.status .Continue ∧
      generateInputs (runTurn env).events = [u] ∧
      primaryTexts (runTurn env).events = [apology] ∧
      ∀ t ∈ synthTexts (runTurn env).events, t = apology := by
  rw [runTurn_normal env u hc hne hmem, hg]
  cases hp : env.primaryOk <;> cases hf : env.fallbackOk <;>
    simp_all [speakRaises, speakEvents, get_ai_response, generateInputs,
      primaryTexts, synthTexts]

/-- C5 witness: a quota failure on an ordinary utterance. -/
theorem C5_generation_failure_apology_witness :
    (runTurn ⟨.recognized "Hello there", .failure "quota", true, true⟩).result =
        TurnResult.status .Continue ∧
      generateInputs (runTurn ⟨.recognized "Hello there", .failure "quota",
          true, true⟩).events = ["Hello there"] ∧
      primaryTexts (runTurn ⟨.recognized "Hello there", .failure "quota",
          true, true⟩).events = [apology] ∧
      ∀ t ∈ synthTexts (runTurn ⟨.recognized "Hello there", .failure "quota",
          true, true⟩).events, t = apology :=
  C5_generation_failure_apology ⟨.recognized "Hello there", .failure "quota", true, true⟩
    "Hello there" "quota" rfl (by decide) (by decide) rfl rfl

/-- C6: on any turn where the primary synthesis path fails and the
fallback works, the fallback is attempted exactly once per `speak` call
and with the same text as the primary attempt, and no exception escapes
the turn. -/
theorem C6_primary_failure_fallback (env : TurnEnv) (text : String)
    (hp : env.primaryOk = false) (hf : env.fallbackOk = true) :
    speakEvents env.primaryOk env.fallbackOk text =
        [Event.primarySynth text false, Event.fallbackSynth text true] ∧
      speakRaises env.primaryOk env.fallbackOk = false ∧
      (runTurn env).result ≠ TurnResult.raised ∧
      fallbackTexts (runTurn env).events = primaryTexts (runTurn env).events := by
  have hrun : (runTurn env).result ≠ TurnResult.raised ∧
      fallbackTexts (runTurn env).events = primaryTexts (runTurn env).events := by
    rcases hc : listen env.capture with _ | u
    · constructor <;> simp [runTurn, hc, fallbackTexts, primaryTexts]
    · by_cases hu : u = ""
      · subst hu
        constructor <;> simp [runTurn, hc, fallbackTexts, primaryTexts]
      · cases hmem : exitPhrases.contains (pyStrip (pyLower u))
        · rw [runTurn_normal env u hc hu hmem, hp, hf]
          constructor <;>
            simp [speakRaises, speakEvents, fallbackTexts, primaryTexts]
        · rw [runTurn_exit env u hc hu hmem, hp, hf]
          constructor <;>
            simp [speakRaises, speakEvents, fallbackTexts, primaryTexts]
  exact ⟨by simp [hp, hf, speakEvents], by simp [hp, hf, speakRaises], hrun.1, hrun.2⟩

/-- C6 witness: primary fails, fallback works, on an ordinary turn. -/
theorem C6_primary_failure_fallback_witness :
    speakEvents (TurnEnv.mk (.recognized "hello") (.success "hi") false true).primaryOk
        (TurnEnv.mk (.recognized "hello") (.success "hi") false true).fallbackOk "hi" =
        [Event.primarySynth "hi" false, Event.fallbackSynth "hi" true] ∧
      speakRaises (TurnEnv.mk (.recognized "hello") (.success "hi") false true).primaryOk
        (TurnEnv.mk (.recognized "hello") (.success "hi") false true).fallbackOk = false ∧
      (runTurn ⟨.recognized "hello", .success "hi", false, true⟩).result ≠
        TurnResult.raised ∧
      fallbackTexts (runTurn ⟨.recognized "hello", .success "hi", false, true⟩).events =
        primaryTexts (runTurn ⟨.recognized "hello", .success "hi", false, true⟩).events :=
  C6_primary_failure_fallback ⟨.recognized "hello", .success "hi", false, true⟩ "hi" rfl rfl

/-- C7: a non-empty, non-exit utterance with working primary synthesis
yields exactly the strictly sequential trace capture, then one
`send_message` call on the utterance, then one synthesis call whose text
is the generated reply, and the turn returns `Continue`. -/
theorem C7_normal_turn_trace (env : TurnEnv) (u : String)
    (hc : listen env.capture = some u) (hne : u ≠ "")
    (hmem : exitPhrases.contains (pyStrip (pyLower u)) = false)
    (hp : env.primaryOk = true) :
    runTurn env =
      ⟨TurnResult.status .Continue,
        [Event.capture (some u), Event.generateCall u (get_ai_response env.gen),
          Event.primarySynth (get_ai_response env.gen) true]⟩ := by
  rw [runTurn_normal env u hc hne hmem, hp]
  simp [speakRaises, speakEvents]

/-- C7 witness: the spec scenario, with the reply "Hi! How can I help?". -/
theorem C7_normal_turn_trace_witness :
    runTurn ⟨.recognized "Hello there", .success "Hi! How can I help?", true, true⟩ =
      ⟨TurnResult.status .Continue,
        [Event.capture (some "Hello there"),
          Event.generateCall "Hello there" "Hi! How can I help?",
          Event.primarySynth "Hi! How can I help?" true]⟩ :=
  (C7_normal_turn_trace
      ⟨.recognized "Hello there", .success "Hi! How can I help?", true, true⟩
      "Hello there" rfl (by decide) (by decide) rfl).trans (by decide)

/-- C8: exit detection is full-string equality after normalization: an
utterance that does not equal an exit phrase after lowering and trimming
(even one that merely contains an exit phrase) never ends the loop; it is
forwarded to `send_message` and, when synthesis does not raise, the turn
returns `Continue`. -/
theorem C8_embedded_exit_phrase_not_exit (env : TurnEnv) (u : String)
    (hc : listen env.capture = some u) (hne : u ≠ "")
    (hmem : exitPhrases.contains (pyStrip (pyLower u)) = false) :
    (runTurn env).result ≠ TurnResult.status .Exit ∧
      generateInputs (runTurn env).events = [u] ∧
      ((env.primaryOk || env.fallbackOk) = true →
        (runTurn env).result = TurnResult.status .Continue) := by
  rw [runTurn_normal env u hc hne hmem]
  cases hp : env.primaryOk <;> cases hf : env.fallbackOk <;>
    simp [speakRaises, speakEvents, generateInputs]

/-- C8 witness: "please exit now" contains "exit" but does not end the
loop. -/
theorem C8_embedded_exit_phrase_not_exit_witness :
    (runTurn ⟨.recognized "please exit now", .success "ok", true, true⟩).result ≠
        TurnResult.status .Exit ∧
      generateInputs (runTurn ⟨.recognized "please exit now", .success "ok",
          true, true⟩).events = ["please exit now"] ∧
      (((TurnEnv.mk (.recognized "please exit now") (.success "ok") true true).primaryOk ||
          (TurnEnv.mk (.recognized "please exit now") (.success "ok") true true).fallbackOk) =
            true →
        (runTurn ⟨.recognized "please exit now", .success "ok", true, true⟩).result =
          TurnResult.status .Continue) :=
  C8_embedded_exit_phrase_not_exit
    ⟨.recognized "please exit now", .success "ok", true, true⟩ "please exit now"
    rfl (by decide) (by decide)

/-- C9: normalization is used only for the exit test: the text forwarded
to `send_message` on a normal turn is the captured utterance itself,
unmodified (not lowered, not trimmed). -/
theorem C9_raw_utterance_forwarded (env : TurnEnv) (u : String)
    (hc : listen env.capture = some u) (hne : u ≠ "")
    (hmem : exitPhrases.contains (pyStrip (pyLower u)) = false) :
    generateInputs (runTurn env).events = [u] := by
  rw [runTurn_normal env u hc hne hmem]
  cases hp : env.primaryOk <;> simp [speakEvents, generateInputs]

/-- C9 witness: an utterance whose normalized form differs from it is
forwarded verbatim. -/
theorem C9_raw_utterance_forwarded_witness :
    generateInputs (runTurn ⟨.recognized "  Hello There ", .success "ok",
        true, true⟩).events = ["  Hello There "] ∧
      "  Hello There " ≠ pyStrip (pyLower "  Hello There ") :=
  ⟨C9_raw_utterance_forwarded
      ⟨.recognized "  Hello There ", .success "ok", true, true⟩ "  Hello There "
      rfl (by decide) (by decide),
    by decide⟩

/-- Lowering a whitespace character leaves it unchanged. -/
theorem toLower_of_isWhitespace (c : Char) (h : c.isWhitespace = true) :
    c.toLower = c := by
  simp [Char.isWhitespace] at h
  rcases h with ((h | h) | h) | h <;> subst h <;> decide

/-- Lowering an all-whitespace character list leaves it unchanged. -/
theorem map_toLower_of_whitespace (l : List Char)
    (h : ∀ c ∈ l, c.isWhitespace = true) : l.map Char.toLower = l := by
  induction l with
  | nil => rfl
  | cons a t ih =>
    rw [List.map_cons, toLower_of_isWhitespace a (h a (List.mem_cons_self a t)),
      ih fun c hc => h c (List.mem_cons_of_mem a hc)]

/-- Dropping whitespace from an all-whitespace character list empties
it. -/
theorem dropWhile_whitespace_eq_nil (l : List Char)
    (h : ∀ c ∈ l, c.isWhitespace = true) :
    l.dropWhile Char.isWhitespace = [] := by
  induction l with
  | nil => rfl
  | cons a t ih =>
    rw [List.dropWhile_cons]
    simp [h a (List.mem_cons_self a t), ih fun c hc => h c (List.mem_cons_of_mem a hc)]

/-- A whitespace-only utterance normalizes to the empty string. -/
theorem pyStrip_pyLower_of_whitespace (u : String)
    (h : ∀ c ∈ u.data, c.isWhitespace = true) :
    pyStrip (pyLower u) = "" := by
  simp only [pyLower, pyStrip, map_toLower_of_whitespace u.data h]
  rw [dropWhile_whitespace_eq_nil u.data h]
  decide

/-- C10: a captured utterance made only of whitespace is not an idle
turn: it passes the Python truthiness test (it is a non-empty string),
normalizes to the empty string so it fails the exit test, and is forwarded
to `send_message` as a normal turn, returning `Continue` when synthesis
does not raise. -/
theorem C10_whitespace_only_is_normal_turn (env : TurnEnv) (u : String)
    (hc : listen env.capture = some u) (hne : u ≠ "")
    (hw : ∀ c ∈ u.data, c.isWhitespace = true) :
    (runTurn env).result ≠ TurnResult.status .Idle ∧
      generateInputs (runTurn env).events = [u] ∧
      ((env.primaryOk || env.fallbackOk) = true →
        (runTurn env).result = TurnResult.status .Continue) := by
  have hmem : exitPhrases.contains (pyStrip (pyLower u)) = false := by
    rw [pyStrip_pyLower_of_whitespace u hw]
    decide
  rw [runTurn_normal env u hc hne hmem]
  cases hp : env.primaryOk <;> cases hf : env.fallbackOk <;>
    simp [speakRaises, speakEvents, generateInputs]

/-- C10 witness: three spaces. -/
theorem C10_whitespace_only_is_normal_turn_witness :
    (runTurn ⟨.recognized "   ", .success "hi", true, true⟩).result ≠
        TurnResult.status .Idle ∧
      generateInputs (runTurn ⟨.recognized "   ", .success "hi",
          true, true⟩).events = ["   "] ∧
      (((TurnEnv.mk (.recognized "   ") (.success "hi") true true).primaryOk ||
          (TurnEnv.mk (.recognized "   ") (.success "hi") true true).fallbackOk) = true →
        (runTurn ⟨.recognized "   ", .success "hi", true, true⟩).result =
          TurnResult.status .Continue) :=
  C10_whitespace_only_is_normal_turn ⟨.recognized "   ", .success "hi", true, true⟩
    "   " rfl (by decide) (by decide)

end ConAI
